import Mathlib

/-!
# Verification of the FastAPI Shopify search proxy

A shallow embedding of `fastapi-backend/app/main.py`: the upstream JSON
values are modelled by an inductive `JVal`, Python's dynamic operations
(`dict.get`, subscripting, truthiness, `float(...)` coercion, iteration)
are modelled as total Lean functions returning `Except PyErr _` where the
Python operation can raise, and the two functions `normalize_domain` and
`search_shopify_products` together with the `GET /search` handler are
translated statement by statement.  The upstream HTTP exchange is modelled
by an oracle `GraphQLRequest → UpstreamResponse` supplied as an argument.
-/

set_option maxRecDepth 4096

namespace ShopifyProxy

/-- A JSON value, as produced by Python's json parsing of the upstream
response body.  Python `None` and JSON `null` coincide after parsing, so a
single `null` constructor models both.  Numbers are modelled as rationals. -/
inductive JVal where
  | null : JVal
  | bool : Bool → JVal
  | num : Rat → JVal
  | str : String → JVal
  | arr : List JVal → JVal
  | obj : List (String × JVal) → JVal

/-- Errors a Python expression in the translated code can raise
(other than the deliberately raised HTTPException / RuntimeError). -/
inductive PyErr where
  | attrError : PyErr
  | typeError : PyErr
  | valueError : PyErr
  | indexError : PyErr
  | jsonDecodeError : PyErr
  | validationError : PyErr
  | keyError : String → PyErr
  deriving DecidableEq

/-- First-match lookup in an association list, modelling Python dict key
lookup (parsed JSON objects have unique keys, so first match is faithful). -/
def lookupKV : List (String × JVal) → String → Option JVal
  | [], _ => none
  | (k', v) :: rest, k => if k' = k then some v else lookupKV rest k

/-- Key lookup on a `JVal`; `none` both when the key is missing and when the
value is not an object (callers that care distinguish the two cases). -/
def jlookup (x : JVal) (k : String) : Option JVal :=
  match x with
  | .obj kvs => lookupKV kvs k
  | _ => none

def JVal.isObj : JVal → Bool
  | .obj _ => true
  | _ => false

/-- Python truthiness of a parsed-JSON value: `None`, `False`, `0`, `""`,
`[]` and the empty dict are falsy, everything else truthy. -/
def pyTruthy : JVal → Bool
  | .null => false
  | .bool b => b
  | .num q => decide (q ≠ 0)
  | .str s => decide (s ≠ "")
  | .arr xs => !xs.isEmpty
  | .obj kvs => !kvs.isEmpty

/-- Python `x.get(k, d)`: defaulting key lookup, valid only on dicts
(`AttributeError` otherwise). -/
def pyGet (x : JVal) (k : String) (d : JVal) : Except PyErr JVal :=
  match x with
  | .obj kvs => .ok ((lookupKV kvs k).getD d)
  | _ => .error .attrError

/-- Python `x[k]` with a string key: `KeyError` when the key is missing,
`TypeError` on non-dict values (lists/strings reject string subscripts). -/
def pySubscript (x : JVal) (k : String) : Except PyErr JVal :=
  match x with
  | .obj kvs =>
    match lookupKV kvs k with
    | some v => .ok v
    | none => .error (.keyError k)
  | _ => .error .typeError

/-- Python `x[0]`: first element of a list (or first character of a string);
`IndexError` when empty, `KeyError`/`TypeError` on other values. -/
def pyIndex0 : JVal → Except PyErr JVal
  | .arr [] => .error .indexError
  | .arr (x :: _) => .ok x
  | .str s =>
    match s.data with
    | [] => .error .indexError
    | c :: _ => .ok (.str (String.mk [c]))
  | .obj _ => .error (.keyError "0")
  | _ => .error .typeError

/-- Python `k in x` for a string `k`: key test on dicts, membership on
lists, substring test on strings, `TypeError` otherwise. -/
def containsRun (p s : List Char) : Bool :=
  (List.range (s.length + 1)).any (fun i => p.isPrefixOf (s.drop i))

def pyIn (k : String) (x : JVal) : Except PyErr Bool :=
  match x with
  | .obj kvs => .ok (kvs.any (fun p => p.1 == k))
  | .arr xs => .ok (xs.any (fun v => match v with | .str s => s == k | _ => false))
  | .str s => .ok (containsRun k.data s.data)
  | _ => .error .typeError

/-- Python `for x in e`: lists iterate elements, dicts iterate keys,
strings iterate one-character strings; other values are not iterable. -/
def pyIterate : JVal → Except PyErr (List JVal)
  | .arr xs => .ok xs
  | .obj kvs => .ok (kvs.map (fun p => .str p.1))
  | .str s => .ok (s.data.map (fun c => .str (String.mk [c])))
  | _ => .error .typeError

/-- The whitespace characters stripped by Python's `str.strip()`. -/
def pyIsSpace (c : Char) : Bool :=
  c = ' ' ∨ c = '\t' ∨ c = '\n' ∨ c = '\r' ∨ c = '\x0b' ∨ c = '\x0c'

/-- Strip characters satisfying `p` from both ends of a character list. -/
def pyStripBy (p : Char → Bool) (s : List Char) : List Char :=
  ((s.dropWhile p).reverse.dropWhile p).reverse

/-- Python `s.strip()`. -/
def pyStrip (s : List Char) : List Char := pyStripBy pyIsSpace s

/-- Python `s.strip("/")`. -/
def pyStripSlashes (s : List Char) : List Char := pyStripBy (fun c => c = '/') s

/-- Python float parsing helpers: the value of a nonempty digit run. -/
def digitsToNat (cs : List Char) : Nat :=
  cs.foldl (fun a c => 10 * a + (c.toNat - 48)) 0

/-- Split a character list at the first character satisfying `p`. -/
def splitOnce (p : Char → Bool) : List Char → Option (List Char × List Char)
  | [] => none
  | c :: cs =>
    if p c then some ([], cs)
    else match splitOnce p cs with
      | some (a, b) => some (c :: a, b)
      | none => none

/-- Leading sign of a Python numeric literal. -/
def parseSign : List Char → Bool × List Char
  | '+' :: r => (false, r)
  | '-' :: r => (true, r)
  | r => (false, r)

/-- Mantissa of a Python float literal: digits with at most one decimal
point and at least one digit overall. -/
def parseMantissa (cs : List Char) : Option Rat :=
  match splitOnce (fun c => c = '.') cs with
  | none =>
    if cs ≠ [] ∧ cs.all Char.isDigit then some (digitsToNat cs : Rat) else none
  | some (ip, fp) =>
    if (ip ≠ [] ∨ fp ≠ []) ∧ ip.all Char.isDigit ∧ fp.all Char.isDigit then
      some ((digitsToNat (ip ++ fp) : Rat) / ((10 : Rat) ^ fp.length))
    else none

/-- Exponent part of a Python float literal. -/
def parseExp (cs : List Char) : Option (Bool × Nat) :=
  let (neg, r) := parseSign cs
  if r ≠ [] ∧ r.all Char.isDigit then some (neg, digitsToNat r) else none

/-- Python `float(s)` on strings: surrounding whitespace is ignored, then an
optional sign, a decimal mantissa and an optional exponent.  (The rarely
used `inf`/`nan` spellings and digit-group underscores are not modelled;
no claim depends on them.) -/
def parsePyFloat (s : String) : Option Rat :=
  let t := pyStrip s.data
  let (neg, r) := parseSign t
  match splitOnce (fun c => c = 'e' ∨ c = 'E') r with
  | none => (parseMantissa r).map (fun m => if neg then -m else m)
  | some (mpart, epart) =>
    match parseMantissa mpart, parseExp epart with
    | some m, some (eneg, e) =>
      some (if eneg then (if neg then -m else m) / (10 : Rat) ^ e
            else (if neg then -m else m) * (10 : Rat) ^ e)
    | _, _ => none

/-- Python `float(x)` on a parsed-JSON value: numbers pass through, booleans
coerce to 0/1, strings are parsed (`ValueError` on failure), anything else
is a `TypeError`. -/
def pyFloat : JVal → Except PyErr Rat
  | .num q => .ok q
  | .bool b => .ok (if b then 1 else 0)
  | .str s =>
    match parsePyFloat s with
    | some q => .ok q
    | none => .error .valueError
  | _ => .error .typeError

/-- The process-wide settings of the app (main.py, class Settings).
The request timeout does not influence any value computed here. -/
structure Settings where
  shopify_store_domain : String := "example.myshopify.com"
  shopify_storefront_token : String := ""
  shopify_api_version : String := "2024-07"
  deriving DecidableEq

/-- main.py, class Money.  The Python `float` amount is modelled as a
rational number. -/
structure Money where
  amount : Rat
  currencyCode : String
  deriving DecidableEq

/-- main.py, class ProductResult. -/
structure ProductResult where
  id : String
  title : String
  handle : String
  url : Option String := none
  price : Option Money := none
  image : Option String := none
  imageAlt : Option String := none
  deriving DecidableEq

/-- main.py, class SearchResponse. -/
structure SearchResponse where
  store : String
  query : String
  count : Nat
  results : List ProductResult
  deriving DecidableEq

/-- main.py, `normalize_domain` (lines 28-35): strip surrounding
whitespace, then drop a leading `http://` if present, then drop a leading
`https://` from the result if present (two separate `if` statements), then
strip whitespace again and strip leading/trailing slashes. -/
def normalize_domain (domain : Option String) : String :=
  let d0 := pyStrip (domain.getD "").data
  let d1 := if ("http://".data).isPrefixOf d0 then d0.drop "http://".data.length else d0
  let d2 := if ("https://".data).isPrefixOf d1 then d1.drop "https://".data.length else d1
  String.mk (pyStripSlashes (pyStrip d2))

/-- Errors the translated `search_shopify_products` can produce: the
deliberately raised `HTTPException`s, the `RuntimeError` raised by
`ensure_config_ok`, and uncaught Python exceptions. -/
inductive HTTPDetail where
  | detailText : String → HTTPDetail
  | shopifyFailed : JVal → HTTPDetail
  | shopifyFailedText : String → HTTPDetail
  | shopifyGraphQL : JVal → HTTPDetail

inductive SearchErr where
  | httpException : Nat → HTTPDetail → SearchErr
  | runtimeError : String → SearchErr
  | pyErr : PyErr → SearchErr

/-- main.py, `ensure_config_ok` (lines 37-46). -/
def ensure_config_ok (s : Settings) : Except SearchErr String :=
  let d := normalize_domain (some s.shopify_store_domain)
  if d = "" ∨ ¬ d.data.contains '.' then
    .error (.runtimeError "Invalid SHOPIFY_STORE_DOMAIN. Expected 'myshop.myshopify.com' (no protocol, no trailing slash).")
  else if s.shopify_storefront_token = "" then
    .error (.runtimeError "Missing SHOPIFY_STOREFRONT_TOKEN.")
  else
    .ok d

/-- The single outbound POST issued by the client (url, token header and
GraphQL variables); the fixed query document is omitted as it carries no
varying data. -/
structure GraphQLRequest where
  url : String
  token : String
  q : String
  num : Int
  deriving DecidableEq

/-- main.py line 142: the `num` variable is the limit clamped to [1, 50]. -/
def num_variable (limit : Int) : Int := max 1 (min limit 50)

/-- The request `search_shopify_products` sends for a given resolved
domain and token (main.py lines 137-145). -/
def sentRequest (domain apiVersion token query : String) (limit : Int) : GraphQLRequest :=
  { url := "https://" ++ domain ++ "/api/" ++ apiVersion ++ "/graphql.json"
    token := token
    q := query
    num := num_variable limit }

/-- The upstream HTTP response: status code, the JSON parse of the body
(`none` when the body is not valid JSON, in which case `resp.json()`
raises) and the raw body text. -/
structure UpstreamResponse where
  status : Nat
  jsonBody : Option JVal
  text : String

/-- Python truthiness of `Optional[str]`: `None` and `""` are falsy. -/
def pyTruthyStrOpt : Option String → Bool
  | none => false
  | some s => decide (s ≠ "")

/-- main.py lines 163-168: resolve the price node of a product node.
`price_node = None` is modelled as `JVal.null` (Python `None`). -/
def resolve_price_node (node : JVal) : Except PyErr JVal :=
  match pyGet node "variants" (.obj []) with
  | .error e => .error e
  | .ok variants =>
    match pyGet variants "edges" (.arr []) with
    | .error e => .error e
    | .ok variant_edges =>
      if pyTruthy variant_edges then
        match pyIndex0 variant_edges with
        | .error e => .error e
        | .ok ve0 =>
          match pyGet ve0 "node" (.obj []) with
          | .error e => .error e
          | .ok v =>
            match pyGet v "price" .null with
            | .error e => .error e
            | .ok p =>
              if pyTruthy p then .ok p
              else
                match pyGet v "priceV2" .null with
                | .error e => .error e
                | .ok p2 => .ok p2
      else .ok .null

/-- main.py lines 170-173: resolve the image node of a product node.
Note the source reads `img_edges[0]["node"]` with bracket subscripts, so a
first images edge without a `node` key raises `KeyError` (reached only
when `featuredImage` is absent or falsy, by `or` short-circuiting). -/
def resolve_img_node (node : JVal) : Except PyErr JVal :=
  match pyGet node "featuredImage" .null with
  | .error e => .error e
  | .ok fRaw =>
    let featured := if pyTruthy fRaw then fRaw else .obj []
    match pyGet node "images" (.obj []) with
    | .error e => .error e
    | .ok images =>
      match pyGet images "edges" (.arr []) with
      | .error e => .error e
      | .ok img_edges =>
        if pyTruthy featured then .ok featured
        else if pyTruthy img_edges then
          match pyIndex0 img_edges with
          | .error e => .error e
          | .ok e0 => pySubscript e0 "node"
        else .ok (.obj [])

/-- Pydantic validation of a `str` field: only a string is accepted. -/
def asStr : JVal → Except PyErr String
  | .str s => .ok s
  | _ => .error .validationError

/-- Pydantic validation of an `Optional[str]` field. -/
def asOptStr : JVal → Except PyErr (Option String)
  | .null => .ok none
  | .str s => .ok (some s)
  | _ => .error .validationError

/-- main.py lines 175-186: construct the `ProductResult` for one node,
given the already-resolved price node and image node.  Argument values are
computed in the source's keyword-argument order (id, title, handle, url,
price - where `float(price_node["amount"])` and the Money construction
happen - then image and imageAlt), before pydantic validation. -/
def build_product (node price_node img_node : JVal) : Except PyErr ProductResult :=
  match pyGet node "id" (.str "") with
  | .error e => .error e
  | .ok idv =>
    match pyGet node "title" (.str "") with
    | .error e => .error e
    | .ok titlev =>
      match pyGet node "handle" (.str "") with
      | .error e => .error e
      | .ok handlev =>
        match pyGet node "onlineStoreUrl" .null with
        | .error e => .error e
        | .ok urlv =>
          match
            (if pyTruthy price_node then
              match pySubscript price_node "amount" with
              | .error e => .error e
              | .ok amt =>
                match pyFloat amt with
                | .error e => .error e
                | .ok amtF =>
                  match pySubscript price_node "currencyCode" with
                  | .error e => .error e
                  | .ok cc =>
                    match asStr cc with
                    | .error e => .error e
                    | .ok ccS => .ok (some { amount := amtF, currencyCode := ccS })
            else .ok none : Except PyErr (Option Money)) with
          | .error e => .error e
          | .ok price =>
            match pyGet img_node "url" .null with
            | .error e => .error e
            | .ok imgv =>
              match pyGet img_node "altText" .null with
              | .error e => .error e
              | .ok imgAltv =>
                match asStr idv with
                | .error e => .error e
                | .ok idS =>
                  match asStr titlev with
                  | .error e => .error e
                  | .ok titleS =>
                    match asStr handlev with
                    | .error e => .error e
                    | .ok handleS =>
                      match asOptStr urlv with
                      | .error e => .error e
                      | .ok urlS =>
                        match asOptStr imgv with
                        | .error e => .error e
                        | .ok imgS =>
                          match asOptStr imgAltv with
                          | .error e => .error e
                          | .ok imgAltS =>
                            .ok { id := idS, title := titleS, handle := handleS,
                                  url := urlS, price := price,
                                  image := imgS, imageAlt := imgAltS }

/-- One iteration of the loop at main.py lines 160-186. -/
def normalizeEdge (edge : JVal) : Except PyErr ProductResult :=
  match pyGet edge "node" (.obj []) with
  | .error e => .error e
  | .ok node =>
    match resolve_price_node node with
    | .error e => .error e
    | .ok price_node =>
      match resolve_img_node node with
      | .error e => .error e
      | .ok img_node => build_product node price_node img_node

/-- The whole loop at main.py lines 160-186: results are appended in edge
order; the first uncaught exception aborts the request. -/
def mapEdges : List JVal → Except PyErr (List ProductResult)
  | [] => .ok []
  | e :: es =>
    match normalizeEdge e with
    | .error err => .error err
    | .ok r =>
      match mapEdges es with
      | .error err => .error err
      | .ok rs => .ok (r :: rs)

/-- main.py lines 146-159: handling of the upstream response - non-200
statuses forward the parsed body (or the raw text when the body is not
JSON) as a 502, a 200 body with a GraphQL-level `errors` member becomes a
502 carrying that member, otherwise the `data.products.edges` path is
extracted (missing levels defaulting to empty) and iterated. -/
def handle_response (resp : UpstreamResponse) : Except SearchErr (List JVal) :=
  if resp.status ≠ 200 then
    match resp.jsonBody with
    | some err => .error (.httpException 502 (.shopifyFailed err))
    | none => .error (.httpException 502 (.shopifyFailedText resp.text))
  else
    match resp.jsonBody with
    | none => .error (.pyErr .jsonDecodeError)
    | some data =>
      match pyIn "errors" data with
      | .error e => .error (.pyErr e)
      | .ok true =>
        match pySubscript data "errors" with
        | .error e => .error (.pyErr e)
        | .ok errs => .error (.httpException 502 (.shopifyGraphQL errs))
      | .ok false =>
        match pyGet data "data" (.obj []) with
        | .error e => .error (.pyErr e)
        | .ok d1 =>
          match pyGet d1 "products" (.obj []) with
          | .error e => .error (.pyErr e)
          | .ok d2 =>
            match pyGet d2 "edges" (.arr []) with
            | .error e => .error (.pyErr e)
            | .ok edges =>
              match pyIterate edges with
              | .error e => .error (.pyErr e)
              | .ok edgeList => .ok edgeList

/-- main.py lines 123-159: everything `search_shopify_products` does
before the normalization loop - resolve the domain (override or validated
config), check the token, send the request to the upstream oracle and
handle its response. -/
def search_prelude (settings : Settings) (query : String) (limit : Int)
    (store_domain : Option String) (upstream : GraphQLRequest → UpstreamResponse) :
    Except SearchErr (List JVal) :=
  match
    (if pyTruthyStrOpt store_domain then .ok (normalize_domain store_domain)
     else ensure_config_ok settings : Except SearchErr String) with
  | .error e => .error e
  | .ok domain =>
    let token := String.mk (pyStrip settings.shopify_storefront_token.data)
    if token = "" then
      .error (.httpException 500 (.detailText "Missing SHOPIFY_STOREFRONT_TOKEN. Set it in your .env."))
    else
      handle_response (upstream (sentRequest domain settings.shopify_api_version token query limit))

/-- main.py lines 123-188, `search_shopify_products`: the prelude followed
by the normalization loop. -/
def search_shopify_products (settings : Settings) (query : String) (limit : Int)
    (store_domain : Option String) (upstream : GraphQLRequest → UpstreamResponse) :
    Except SearchErr (List ProductResult) :=
  match search_prelude settings query limit store_domain upstream with
  | .error e => .error e
  | .ok edgeList =>
    match mapEdges edgeList with
    | .error e => .error (.pyErr e)
    | .ok results => .ok results

/-- Errors the `GET /search` surface can produce: the framework-level 422
validation errors raised at the boundary (missing `q`, out-of-range
`limit`, as declared by `Query(...)` / `Query(5, ge=1, le=50)`), and the
errors of the search function. -/
inductive RouteErr where
  | validationError : String → RouteErr
  | serverErr : SearchErr → RouteErr

/-- main.py lines 210-226, the `GET /search` handler, including the
parameter validation declared on its signature.  `q = none` models a
request without the required `q` parameter. -/
def searchRoute (settings : Settings) (q : Option String) (limit : Option Int)
    (store : Option String) (upstream : GraphQLRequest → UpstreamResponse) :
    Except RouteErr SearchResponse :=
  match q with
  | none => .error (.validationError "q: field required")
  | some qv =>
    let lim := limit.getD 5
    if lim < 1 ∨ 50 < lim then .error (.validationError "limit: value out of range")
    else
      match search_shopify_products settings qv lim store upstream with
      | .error e => .error (.serverErr e)
      | .ok results =>
        .ok { store := if pyTruthyStrOpt store then normalize_domain store
                       else normalize_domain (some settings.shopify_store_domain)
              query := qv
              count := results.length
              results := results }

/-!
## Spec-side definitions

The following `spec...` definitions follow the words of the specification
(sections 4.4 and 8) rather than the code; the theorems below compare the
translated code against them.  "Absent" for a GraphQL field is read as
"key missing or value null", matching the spec's option-typed model of the
response (section 9: "every nesting level explicitly nullable").
-/

/-- A field value that is present and not null, else `none`. -/
def presentNonNull : Option JVal → Option JVal
  | some .null => none
  | some x => some x
  | none => none

/-- Spec 4.4: scalar fields "default to empty string if absent". -/
def strOrEmpty (o : Option JVal) : String :=
  match o with
  | some (.str s) => s
  | _ => ""

/-- Spec 4.4: optional string fields are "unset" when absent. -/
def specOptStr (o : Option JVal) : Option String :=
  match o with
  | some (.str s) => some s
  | _ => none

/-- Spec 4.4 price resolution: "the first variant's edges"; a missing
`variants` or `edges` level is an empty sequence. -/
def specVariantEdges (node : JVal) : List JVal :=
  match jlookup node "variants" with
  | some v =>
    match jlookup v "edges" with
    | some (.arr xs) => xs
    | _ => []
  | none => []

/-- Spec 4.4: "if none exist, price is unset.  Otherwise take that
variant's node; prefer the field named price; if absent, fall back to the
field named priceV2; if both absent, price is unset." -/
def specPriceNode (node : JVal) : Option JVal :=
  match specVariantEdges node with
  | [] => none
  | e :: _ =>
    let v := (jlookup e "node").getD (.obj [])
    match presentNonNull (jlookup v "price") with
    | some p => some p
    | none => presentNonNull (jlookup v "priceV2")

/-- Spec 4.4: "construct Money by coercing the amount to a numeric value
and copying the currency code verbatim"; `none` when the coercion fails
(that case is a hard error in the code, claim C5). -/
def specMoney (m : JVal) : Option Money :=
  match jlookup m "amount", jlookup m "currencyCode" with
  | some a, some (.str c) =>
    match pyFloat a with
    | .ok q => some { amount := q, currencyCode := c }
    | .error _ => none
  | _, _ => none

/-- The price the spec prescribes for a product node. -/
def specPriceMoney (node : JVal) : Option Money :=
  (specPriceNode node).bind specMoney

/-- Spec 4.4 image resolution: the `images` edges sequence, with missing
levels as empty sequences. -/
def specImageEdges (node : JVal) : List JVal :=
  match jlookup node "images" with
  | some v =>
    match jlookup v "edges" with
    | some (.arr xs) => xs
    | _ => []
  | none => []

/-- Spec 4.4: "prefer featuredImage if it is a non-empty object; otherwise
fall back to the first entry of the images edges sequence; otherwise both
image fields are unset." -/
def specImageNode (node : JVal) : Option JVal :=
  match jlookup node "featuredImage" with
  | some (.obj (kv :: kvs)) => some (.obj (kv :: kvs))
  | _ =>
    match specImageEdges node with
    | [] => none
    | e :: _ => jlookup e "node"

/-- The (image, imageAlt) pair the spec prescribes for a product node. -/
def specImage (node : JVal) : Option String × Option String :=
  match specImageNode node with
  | some n => (specOptStr (jlookup n "url"), specOptStr (jlookup n "altText"))
  | none => (none, none)

/-- The `ProductResult` the spec prescribes for a product node (sections
4.4 and 8), total on schema-shaped nodes. -/
def specNormalizeNode (node : JVal) : ProductResult :=
  { id := strOrEmpty (jlookup node "id")
    title := strOrEmpty (jlookup node "title")
    handle := strOrEmpty (jlookup node "handle")
    url := specOptStr (jlookup node "onlineStoreUrl")
    price := specPriceMoney node
    image := (specImage node).1
    imageAlt := (specImage node).2 }

/-!
## Schema-shaped responses

The upstream responses quantified over by the per-edge claims are the
GraphQL responses to the fixed query document: every requested nesting
level may be absent (missing key, and null where the schema allows null),
and present leaves carry schema-typed values.  `imageEdgeNodeRequired`
selects whether an images edge may omit its `node` key: C1 as stated says
it may; the code disagrees (main.py line 173 uses `img_edges[0]["node"]`).
-/

/-- Missing or a string (non-null schema string fields such as id, title,
handle). -/
def isStrOpt : Option JVal → Bool
  | none => true
  | some (.str _) => true
  | _ => false

/-- Missing, null or a string (nullable schema string fields such as
onlineStoreUrl, url, altText). -/
def isOptNullStr : Option JVal → Bool
  | none => true
  | some .null => true
  | some (.str _) => true
  | _ => false

/-- An image object: url and altText absent, null or strings. -/
def shapedImageObj (j : JVal) : Bool :=
  match j with
  | .obj _ => isOptNullStr (jlookup j "url") && isOptNullStr (jlookup j "altText")
  | _ => false

/-- An amount leaf the code's `float(...)` coercion accepts: a number or a
numeric string. -/
def amountOk : JVal → Bool
  | .num _ => true
  | .str s => (parsePyFloat s).isSome
  | _ => false

/-- A money object as returned for the `price { amount currencyCode }`
selection: both selected fields present, the amount coercible. -/
def shapedMoneyObj (j : JVal) : Bool :=
  match j with
  | .obj _ =>
    (match jlookup j "amount" with
     | some a => amountOk a
     | none => false) &&
    (match jlookup j "currencyCode" with
     | some (.str _) => true
     | _ => false)
  | _ => false

/-- A price field: missing, null, or a money object. -/
def priceShape : Option JVal → Bool
  | none => true
  | some .null => true
  | some j => shapedMoneyObj j

/-- A variant node: an object whose price and priceV2 fields have price
shape. -/
def variantNodeShape (j : JVal) : Bool :=
  match j with
  | .obj _ => priceShape (jlookup j "price") && priceShape (jlookup j "priceV2")
  | _ => false

/-- A variants edge: an object whose node, when present, is a variant
node. -/
def variantEdgeShape (j : JVal) : Bool :=
  match j with
  | .obj _ =>
    match jlookup j "node" with
    | none => true
    | some n => variantNodeShape n
  | _ => false

/-- An images edge: an object carrying an image node; when `nodeRequired`
is false the node may also be missing (the universe claim C1 speaks
about). -/
def imageEdgeShape (nodeRequired : Bool) (j : JVal) : Bool :=
  match j with
  | .obj _ =>
    match jlookup j "node" with
    | none => !nodeRequired
    | some n => shapedImageObj n
  | _ => false

/-- A connection field (`variants` or `images`): missing, or an object
whose `edges`, when present, is a list of well-shaped edges. -/
def connShape (es : JVal → Bool) (o : Option JVal) : Bool :=
  match o with
  | none => true
  | some j =>
    j.isObj &&
    (match jlookup j "edges" with
     | none => true
     | some (.arr xs) => xs.all es
     | some _ => false)

/-- The featuredImage field: missing, null, or an image object (a present
object may be empty, in which case both the code and the spec treat it as
absent). -/
def featuredShape : Option JVal → Bool
  | none => true
  | some .null => true
  | some j => shapedImageObj j

/-- Scalar fields of a product node. -/
def scalarFieldsOk (n : JVal) : Bool :=
  isStrOpt (jlookup n "id") && isStrOpt (jlookup n "title") &&
  isStrOpt (jlookup n "handle") && isOptNullStr (jlookup n "onlineStoreUrl")

/-- A product node of the fixed query, with every optional nesting level
allowed to be absent. -/
def productNodeShape (imgNodeRequired : Bool) (n : JVal) : Bool :=
  n.isObj && scalarFieldsOk n &&
  connShape variantEdgeShape (jlookup n "variants") &&
  featuredShape (jlookup n "featuredImage") &&
  connShape (imageEdgeShape imgNodeRequired) (jlookup n "images")

/-- A products edge: an object whose node, when present, is a product
node. -/
def edgeShape (imgNodeRequired : Bool) (j : JVal) : Bool :=
  match j with
  | .obj _ =>
    match jlookup j "node" with
    | none => true
    | some n => productNodeShape imgNodeRequired n
  | _ => false

/-!
## Correspondence lemmas on schema-shaped inputs
-/

theorem lookupKV_nil (k : String) : lookupKV [] k = none := rfl

theorem shapedMoneyObj_truthy {j : JVal} (h : shapedMoneyObj j = true) :
    pyTruthy j = true := by
  cases j <;> simp [shapedMoneyObj] at h
  case obj kvs =>
    cases kvs with
    | nil => simp [jlookup, lookupKV] at h
    | cons kv rest => simp [pyTruthy]

theorem presentNonNull_obj (kvs : List (String × JVal)) (o : Option JVal)
    (h : o = some (.obj kvs)) : presentNonNull o = some (.obj kvs) := by
  subst h; rfl

theorem priceShape_obj (kvs : List (String × JVal)) :
    priceShape (some (.obj kvs)) = shapedMoneyObj (.obj kvs) := rfl

theorem resolve_price_of_shaped (kvs : List (String × JVal))
    (hv : connShape variantEdgeShape (jlookup (.obj kvs) "variants") = true) :
    resolve_price_node (.obj kvs) = .ok ((specPriceNode (.obj kvs)).getD .null) ∧
    priceShape (specPriceNode (.obj kvs)) = true := by
  simp only [jlookup] at hv
  cases hvv : lookupKV kvs "variants" with
  | none =>
    simp [resolve_price_node, pyGet, hvv, lookupKV, pyTruthy,
      specPriceNode, specVariantEdges, jlookup, priceShape]
  | some v =>
    rw [hvv] at hv
    cases v <;> simp [connShape, JVal.isObj] at hv
    case obj vkvs =>
    simp only [jlookup] at hv
    cases he : lookupKV vkvs "edges" with
    | none =>
      simp [resolve_price_node, pyGet, hvv, he, lookupKV, pyTruthy,
        specPriceNode, specVariantEdges, jlookup, priceShape]
    | some ed =>
      rw [he] at hv
      cases ed with
      | null => exact Bool.noConfusion hv
      | bool b => exact Bool.noConfusion hv
      | num q => exact Bool.noConfusion hv
      | str s => exact Bool.noConfusion hv
      | obj okvs => exact Bool.noConfusion hv
      | arr xs =>
      have hall : xs.all variantEdgeShape = true := hv
      cases xs with
      | nil =>
        simp [resolve_price_node, pyGet, hvv, he, lookupKV, pyTruthy,
          specPriceNode, specVariantEdges, jlookup, priceShape]
      | cons e rest =>
        simp only [List.all_cons, Bool.and_eq_true] at hall
        obtain ⟨hve, -⟩ := hall
        cases e <;> simp [variantEdgeShape] at hve
        case obj ekvs =>
        simp only [jlookup] at hve
        have hstart : resolve_price_node (.obj kvs) =
            match pyGet ((lookupKV ekvs "node").getD (.obj [])) "price" .null with
            | .error e => .error e
            | .ok p =>
              if pyTruthy p then .ok p
              else
                match pyGet ((lookupKV ekvs "node").getD (.obj [])) "priceV2" .null with
                | .error e => .error e
                | .ok p2 => .ok p2 := by
          simp [resolve_price_node, pyGet, hvv, he, pyIndex0, pyTruthy, jlookup]
        have hspecve : specVariantEdges (.obj kvs) = .obj ekvs :: rest := by
          simp [specVariantEdges, jlookup, hvv, he]
        cases hn : lookupKV ekvs "node" with
        | none =>
          simp [hstart, hn, pyGet, lookupKV, pyTruthy,
            specPriceNode, hspecve, jlookup, presentNonNull, priceShape]
        | some vn =>
          rw [hn] at hve
          cases vn <;> simp [variantNodeShape] at hve
          case obj vnkvs =>
          obtain ⟨hp, hp2⟩ := hve
          simp only [jlookup] at hp hp2
          have hspec : specPriceNode (.obj kvs) =
              (match presentNonNull (lookupKV vnkvs "price") with
               | some p => some p
               | none => presentNonNull (lookupKV vnkvs "priceV2")) := by
            simp [specPriceNode, hspecve, jlookup, hn]
          cases hpp : lookupKV vnkvs "price" with
          | none =>
            rw [hpp] at hp
            cases hp2v : lookupKV vnkvs "priceV2" with
            | none =>
              simp [hstart, hn, pyGet, hpp, hp2v, pyTruthy, hspec, presentNonNull, priceShape]
            | some p2 =>
              rw [hp2v] at hp2
              cases p2 with
              | null =>
                simp [hstart, hn, pyGet, hpp, hp2v, pyTruthy, hspec, presentNonNull, priceShape]
              | obj p2kvs =>
                have hm2 : shapedMoneyObj (.obj p2kvs) = true := (priceShape_obj p2kvs) ▸ hp2
                have ht2 : pyTruthy (.obj p2kvs) = true := shapedMoneyObj_truthy hm2
                refine ⟨?_, ?_⟩
                · simp [hstart, hn, pyGet, hpp, hp2v, pyTruthy, ht2, hspec, presentNonNull]
                · rw [hspec, hpp, hp2v]
                  simpa [presentNonNull, priceShape_obj] using hm2
              | _ =>
                simp [priceShape, shapedMoneyObj] at hp2
          | some pv =>
            rw [hpp] at hp
            cases pv with
            | null =>
              cases hp2v : lookupKV vnkvs "priceV2" with
              | none =>
                simp [hstart, hn, pyGet, hpp, hp2v, pyTruthy, hspec, presentNonNull, priceShape]
              | some p2 =>
                rw [hp2v] at hp2
                cases p2 with
                | null =>
                  simp [hstart, hn, pyGet, hpp, hp2v, pyTruthy, hspec, presentNonNull, priceShape]
                | obj p2kvs =>
                  have hm2 : shapedMoneyObj (.obj p2kvs) = true := (priceShape_obj p2kvs) ▸ hp2
                  have ht2 : pyTruthy (.obj p2kvs) = true := shapedMoneyObj_truthy hm2
                  refine ⟨?_, ?_⟩
                  · simp [hstart, hn, pyGet, hpp, hp2v, pyTruthy, ht2, hspec, presentNonNull]
                  · rw [hspec, hpp, hp2v]
                    simpa [presentNonNull, priceShape_obj] using hm2
                | _ =>
                  simp [priceShape, shapedMoneyObj] at hp2
            | obj pkvs =>
              have hm : shapedMoneyObj (.obj pkvs) = true := (priceShape_obj pkvs) ▸ hp
              have ht : pyTruthy (.obj pkvs) = true := shapedMoneyObj_truthy hm
              refine ⟨?_, ?_⟩
              · simp [hstart, hn, pyGet, hpp, ht, hspec, presentNonNull]
              · rw [hspec, hpp]
                simpa [presentNonNull, priceShape_obj] using hm
            | _ =>
              simp [priceShape, shapedMoneyObj] at hp

theorem shapedImageObj_empty : shapedImageObj (.obj []) = true := rfl

theorem pyGet_obj (kvs : List (String × JVal)) (k : String) (d : JVal) :
    pyGet (.obj kvs) k d = .ok ((lookupKV kvs k).getD d) := rfl

/-- The images-edges fallback of the image resolution (main.py line 173,
the part after `featured or`), on a shaped `images` field: the fetch of
the edges list succeeds, the fallback yields a shaped image node, and that
node is the one the spec's words prescribe. -/
theorem img_fallback_of_shaped (o : Option JVal)
    (hi : connShape (imageEdgeShape true) o = true) :
    ∃ E res : JVal,
      pyGet (o.getD (.obj [])) "edges" (.arr []) = .ok E ∧
      (if pyTruthy E then
         match pyIndex0 E with
         | .error e => .error e
         | .ok e0 => pySubscript e0 "node"
       else .ok (.obj []) : Except PyErr JVal) = .ok res ∧
      shapedImageObj res = true ∧
      res = (match (match o with
                    | some v =>
                      match jlookup v "edges" with
                      | some (.arr xs) => xs
                      | _ => []
                    | none => []) with
             | [] => JVal.obj []
             | e :: _ => (jlookup e "node").getD (.obj [])) := by
  cases o with
  | none =>
    exact ⟨JVal.arr [], JVal.obj [], rfl, by simp [pyTruthy], shapedImageObj_empty, rfl⟩
  | some v =>
    simp only [connShape, Bool.and_eq_true] at hi
    obtain ⟨hobj, hedges⟩ := hi
    cases v <;> simp [JVal.isObj] at hobj
    case obj ikvs =>
    simp only [jlookup] at hedges
    cases hz : lookupKV ikvs "edges" with
    | none =>
      refine ⟨JVal.arr [], JVal.obj [], by simp [pyGet, hz], by simp [pyTruthy], shapedImageObj_empty, ?_⟩
      simp [jlookup, hz]
    | some ed =>
      rw [hz] at hedges
      cases ed with
      | null => exact Bool.noConfusion hedges
      | bool b => exact Bool.noConfusion hedges
      | num q => exact Bool.noConfusion hedges
      | str s => exact Bool.noConfusion hedges
      | obj okvs => exact Bool.noConfusion hedges
      | arr xs =>
      have hall : xs.all (imageEdgeShape true) = true := hedges
      cases xs with
      | nil =>
        refine ⟨JVal.arr [], JVal.obj [], by simp [pyGet, hz], by simp [pyTruthy], shapedImageObj_empty, ?_⟩
        simp [jlookup, hz]
      | cons e rest =>
        simp only [List.all_cons, Bool.and_eq_true] at hall
        obtain ⟨he, -⟩ := hall
        cases e <;> simp [imageEdgeShape] at he
        case obj ekvs =>
        simp only [jlookup] at he
        cases hn : lookupKV ekvs "node" with
        | none => rw [hn] at he; exact Bool.noConfusion he
        | some n0 =>
          rw [hn] at he
          refine ⟨JVal.arr (JVal.obj ekvs :: rest), n0, by simp [pyGet, hz], ?_, he, ?_⟩
          · simp [pyTruthy, pyIndex0, pySubscript, hn]
          · simp [jlookup, hz, hn]

theorem getD_match_node (L : List JVal) :
    (match L with
     | [] => (none : Option JVal)
     | e :: _ => jlookup e "node").getD (.obj []) =
    (match L with
     | [] => JVal.obj []
     | e :: _ => (jlookup e "node").getD (.obj [])) := by
  cases L with
  | nil => rfl
  | cons e t => rfl

theorem resolve_img_of_shaped (kvs : List (String × JVal))
    (hf : featuredShape (jlookup (.obj kvs) "featuredImage") = true)
    (hi : connShape (imageEdgeShape true) (jlookup (.obj kvs) "images") = true) :
    resolve_img_node (.obj kvs) = .ok ((specImageNode (.obj kvs)).getD (.obj [])) ∧
    shapedImageObj ((specImageNode (.obj kvs)).getD (.obj [])) = true := by
  simp only [jlookup] at hf hi
  obtain ⟨E, res, hE, hres, hshape, hval⟩ := img_fallback_of_shaped (lookupKV kvs "images") hi
  have hse : specImageEdges (.obj kvs) =
      (match lookupKV kvs "images" with
       | some v =>
         match jlookup v "edges" with
         | some (.arr xs) => xs
         | _ => []
       | none => []) := rfl
  have hspecfb : (specImageNode (.obj kvs) =
        match specImageEdges (.obj kvs) with
        | [] => none
        | e :: _ => jlookup e "node") →
      (specImageNode (.obj kvs)).getD (.obj []) = res := by
    intro hmatch
    rw [hmatch, hse, hval, getD_match_node]
  cases hfv : lookupKV kvs "featuredImage" with
  | some fv =>
    rw [hfv] at hf
    cases fv with
    | null =>
      have hs := hspecfb (by simp [specImageNode, jlookup, hfv])
      rw [hs]
      refine ⟨?_, hshape⟩
      simpa [resolve_img_node, pyGet_obj, hfv, hE, pyTruthy] using hres
    | obj fkvs =>
      cases fkvs with
      | nil =>
        have hs := hspecfb (by simp [specImageNode, jlookup, hfv])
        rw [hs]
        refine ⟨?_, hshape⟩
        simpa [resolve_img_node, pyGet_obj, hfv, hE, pyTruthy] using hres
      | cons kv0 fkvrest =>
        have ht : pyTruthy (.obj (kv0 :: fkvrest)) = true := by simp [pyTruthy]
        have hsn : (specImageNode (.obj kvs)).getD (.obj []) = .obj (kv0 :: fkvrest) := by
          simp [specImageNode, jlookup, hfv]
        rw [hsn]
        refine ⟨?_, hf⟩
        simp [resolve_img_node, pyGet_obj, hfv, hE, pyTruthy]
    | bool b => exact Bool.noConfusion hf
    | num q => exact Bool.noConfusion hf
    | str s => exact Bool.noConfusion hf
    | arr xs => exact Bool.noConfusion hf
  | none =>
    have hs := hspecfb (by simp [specImageNode, jlookup, hfv])
    rw [hs]
    refine ⟨?_, hshape⟩
    simpa [resolve_img_node, pyGet_obj, hfv, hE, pyTruthy] using hres

theorem asStr_of_strOpt (o : Option JVal) (h : isStrOpt o = true) :
    asStr (o.getD (.str "")) = .ok (strOrEmpty o) := by
  cases o with
  | none => rfl
  | some v => cases v <;> first | rfl | simp [isStrOpt] at h

theorem asOptStr_of_optNullStr (o : Option JVal) (h : isOptNullStr o = true) :
    asOptStr (o.getD .null) = .ok (specOptStr o) := by
  cases o with
  | none => rfl
  | some v => cases v <;> first | rfl | simp [isOptNullStr] at h

theorem build_of_shaped (kvs : List (String × JVal))
    (hsc : scalarFieldsOk (.obj kvs) = true)
    (pn inode : JVal)
    (hpn : pn = .null ∨ shapedMoneyObj pn = true)
    (hin : shapedImageObj inode = true) :
    build_product (.obj kvs) pn inode =
      .ok { id := strOrEmpty (lookupKV kvs "id")
            title := strOrEmpty (lookupKV kvs "title")
            handle := strOrEmpty (lookupKV kvs "handle")
            url := specOptStr (lookupKV kvs "onlineStoreUrl")
            price := specMoney pn
            image := specOptStr (jlookup inode "url")
            imageAlt := specOptStr (jlookup inode "altText") } := by
  simp only [scalarFieldsOk, jlookup, Bool.and_eq_true] at hsc
  obtain ⟨⟨⟨h1, h2⟩, h3⟩, h4⟩ := hsc
  cases inode <;> simp [shapedImageObj] at hin
  case obj ikvs =>
  simp only [jlookup, Bool.and_eq_true] at hin
  obtain ⟨hu, ha⟩ := hin
  have hprice : (if pyTruthy pn then
      match pySubscript pn "amount" with
      | .error e => .error e
      | .ok amt =>
        match pyFloat amt with
        | .error e => .error e
        | .ok amtF =>
          match pySubscript pn "currencyCode" with
          | .error e => .error e
          | .ok cc =>
            match asStr cc with
            | .error e => .error e
            | .ok ccS => .ok (some { amount := amtF, currencyCode := ccS })
      else .ok none : Except PyErr (Option Money)) =
      .ok (specMoney pn) := by
    rcases hpn with rfl | hm
    · simp [pyTruthy, specMoney, jlookup]
    · have ht := shapedMoneyObj_truthy hm
      cases pn with
      | null => exact absurd hm (by simp [shapedMoneyObj])
      | bool b => exact absurd hm (by simp [shapedMoneyObj])
      | num q => exact absurd hm (by simp [shapedMoneyObj])
      | str s => exact absurd hm (by simp [shapedMoneyObj])
      | arr xs => exact absurd hm (by simp [shapedMoneyObj])
      | obj pkvs =>
      simp only [shapedMoneyObj, jlookup, Bool.and_eq_true] at hm
      obtain ⟨hamt, hcc⟩ := hm
      cases ham : lookupKV pkvs "amount" with
      | none => rw [ham] at hamt; exact Bool.noConfusion hamt
      | some a =>
        rw [ham] at hamt
        cases hccv : lookupKV pkvs "currencyCode" with
        | none => rw [hccv] at hcc; exact Bool.noConfusion hcc
        | some cv =>
          rw [hccv] at hcc
          cases cv <;> simp at hcc
          case str c =>
          cases a with
          | num q =>
            simp [ht, pySubscript, ham, hccv, pyFloat, asStr, specMoney, jlookup]
          | str s =>
            simp only [amountOk] at hamt
            obtain ⟨q, hq⟩ := Option.isSome_iff_exists.mp hamt
            simp [ht, pySubscript, ham, hccv, pyFloat, hq, asStr, specMoney, jlookup]
          | null => exact Bool.noConfusion hamt
          | bool b => exact Bool.noConfusion hamt
          | arr xs => exact Bool.noConfusion hamt
          | obj okvs => exact Bool.noConfusion hamt
  simp only [build_product, pyGet_obj, Except.ok.injEq]
  rw [hprice]
  simp [asStr_of_strOpt _ h1, asStr_of_strOpt _ h2, asStr_of_strOpt _ h3,
    asOptStr_of_optNullStr _ h4, asOptStr_of_optNullStr _ hu, asOptStr_of_optNullStr _ ha,
    jlookup]

theorem productNodeShape_empty (b : Bool) : productNodeShape b (.obj []) = true := rfl

/-- The central correspondence: on a schema-shaped products edge (with
image-edge nodes present), the loop body of main.py lines 160-186 succeeds
and produces exactly the `ProductResult` the specification's words
prescribe. -/
theorem normalizeEdge_of_shaped (edge : JVal) (h : edgeShape true edge = true) :
    normalizeEdge edge = .ok (specNormalizeNode ((jlookup edge "node").getD (.obj []))) := by
  cases edge <;> simp [edgeShape] at h
  case obj ekvs =>
  simp only [jlookup] at h ⊢
  have hnode : ∃ nkvs, (lookupKV ekvs "node").getD (.obj []) = .obj nkvs ∧
      productNodeShape true (.obj nkvs) = true := by
    cases hn : lookupKV ekvs "node" with
    | none => exact ⟨[], rfl, productNodeShape_empty true⟩
    | some n =>
      rw [hn] at h
      cases n <;> simp [productNodeShape, JVal.isObj] at h
      case obj nkvs =>
        refine ⟨nkvs, rfl, ?_⟩
        simp [productNodeShape, JVal.isObj, h]
  obtain ⟨nkvs, hgetD, hshape⟩ := hnode
  simp only [productNodeShape, Bool.and_eq_true] at hshape
  obtain ⟨⟨⟨⟨-, hsc⟩, hvar⟩, hfeat⟩, himg⟩ := hshape
  obtain ⟨hpr, hprShape⟩ := resolve_price_of_shaped nkvs hvar
  obtain ⟨hir, hiShape⟩ := resolve_img_of_shaped nkvs hfeat himg
  have hpn : (specPriceNode (.obj nkvs)).getD .null = .null ∨
      shapedMoneyObj ((specPriceNode (.obj nkvs)).getD .null) = true := by
    cases hsp : specPriceNode (.obj nkvs) with
    | none => exact Or.inl rfl
    | some p =>
      rw [hsp] at hprShape
      cases p with
      | null => exact Or.inl rfl
      | obj pkvs => exact Or.inr ((priceShape_obj pkvs) ▸ hprShape)
      | bool b => exact Bool.noConfusion hprShape
      | num q => exact Bool.noConfusion hprShape
      | str s => exact Bool.noConfusion hprShape
      | arr xs => exact Bool.noConfusion hprShape
  have hbuild := build_of_shaped nkvs hsc _ _ hpn hiShape
  have hrun : normalizeEdge (.obj ekvs) = build_product (.obj nkvs)
      ((specPriceNode (.obj nkvs)).getD .null) ((specImageNode (.obj nkvs)).getD (.obj [])) := by
    simp only [normalizeEdge, pyGet_obj, hgetD, hpr, hir]
  rw [hrun, hbuild, hgetD]
  have hpm : specMoney ((specPriceNode (.obj nkvs)).getD .null) =
      specPriceMoney (.obj nkvs) := by
    cases hsp : specPriceNode (.obj nkvs) with
    | none => simp [specPriceMoney, hsp, specMoney, jlookup]
    | some p => simp [specPriceMoney, hsp]
  have him : specOptStr (jlookup ((specImageNode (.obj nkvs)).getD (.obj [])) "url") =
        (specImage (.obj nkvs)).1 ∧
      specOptStr (jlookup ((specImageNode (.obj nkvs)).getD (.obj [])) "altText") =
        (specImage (.obj nkvs)).2 := by
    cases hsi : specImageNode (.obj nkvs) with
    | none => simp [specImage, hsi, jlookup, specOptStr, lookupKV]
    | some n0 => simp [specImage, hsi]
  rw [hpm, him.1, him.2]
  simp [specNormalizeNode, jlookup]

/-!
## Loop lemmas
-/

theorem mapEdges_length_get (l : List JVal) (rs : List ProductResult)
    (h : mapEdges l = .ok rs) :
    rs.length = l.length ∧
    ∀ i (h1 : i < l.length) (h2 : i < rs.length),
      normalizeEdge (l.get ⟨i, h1⟩) = .ok (rs.get ⟨i, h2⟩) := by
  induction l generalizing rs with
  | nil =>
    simp only [mapEdges] at h
    cases h
    exact ⟨rfl, fun i h1 _ => absurd h1 (by simp)⟩
  | cons e es ih =>
    simp only [mapEdges] at h
    cases hne : normalizeEdge e with
    | error err => rw [hne] at h; exact Except.noConfusion h
    | ok r =>
      rw [hne] at h
      cases hme : mapEdges es with
      | error err => rw [hme] at h; exact Except.noConfusion h
      | ok rs' =>
        rw [hme] at h
        cases h
        obtain ⟨hlen, hget⟩ := ih rs' hme
        refine ⟨by simp [hlen], ?_⟩
        intro i h1 h2
        cases i with
        | zero => simpa using hne
        | succ j =>
          have hj1 : j < es.length := by simpa using h1
          have hj2 : j < rs'.length := by simpa using h2
          simpa using hget j hj1 hj2

theorem mapEdges_error_of_mem (l : List JVal) (edge : JVal)
    (hmem : edge ∈ l) (hbad : ∀ r, normalizeEdge edge ≠ .ok r) :
    ∃ err, mapEdges l = .error err := by
  induction l with
  | nil => cases hmem
  | cons e es ih =>
    cases hne : normalizeEdge e with
    | error err => exact ⟨err, by simp [mapEdges, hne]⟩
    | ok r =>
      rcases List.mem_cons.mp hmem with rfl | hmem'
      · exact absurd hne (hbad r)
      · obtain ⟨err, herr⟩ := ih hmem'
        exact ⟨err, by simp [mapEdges, hne, herr]⟩

/-!
## The domain normalization as claim C6 words it
-/

/-- Claim C6's description of `normalize_domain`: "trims whitespace,
strips a leading http:// or https:// as literal case-sensitive prefixes
with first match winning and only one strip applied, then strips
leading/trailing /". -/
def normalize_domain_claimwords (s : String) : String :=
  let d0 := pyStrip s.data
  let d1 := if ("http://".data).isPrefixOf d0 then d0.drop "http://".data.length
            else if ("https://".data).isPrefixOf d0 then d0.drop "https://".data.length
            else d0
  String.mk (pyStripSlashes d1)

/-- The amended description of `normalize_domain`: after trimming, a
leading http:// is stripped, then a leading https:// is stripped from the
result (so an http://https:// prefix is stripped twice), whitespace is
trimmed again, then leading/trailing slashes are stripped. -/
def normalize_domain_amended (s : String) : String :=
  let d0 := pyStrip s.data
  let d1 := if ("http://".data).isPrefixOf d0 then d0.drop "http://".data.length
            else if ("https://".data).isPrefixOf d0 then d0.drop "https://".data.length
            else d0
  String.mk (pyStripSlashes (pyStrip d1))

theorem normalize_domain_eq_amended (s : String)
    (h : ("http://https://".data).isPrefixOf (pyStrip s.data) = false) :
    normalize_domain (some s) = normalize_domain_amended s := by
  unfold normalize_domain normalize_domain_amended
  simp only [Option.getD_some]
  cases hp : ("http://".data).isPrefixOf (pyStrip s.data) with
  | false => simp [hp]
  | true =>
    obtain ⟨r, hr⟩ := List.isPrefixOf_iff_prefix.mp hp
    have hsplit : ("http://https://".data : List Char) =
        "http://".data ++ "https://".data := by decide
    have hnr : ("https://".data).isPrefixOf r = false := by
      by_contra hc
      rw [Bool.not_eq_false] at hc
      have h2 : ("http://https://".data).isPrefixOf (pyStrip s.data) = true := by
        rw [List.isPrefixOf_iff_prefix, ← hr, hsplit]
        exact (List.prefix_append_right_inj _).mpr (List.isPrefixOf_iff_prefix.mp hc)
      rw [h2] at h
      exact Bool.noConfusion h
    simp only [hp, if_true]
    rw [← hr, List.drop_left, hnr]
    simp

/-!
## Reduction lemmas for the search pipeline
-/

theorem lookupKV_any (kvs : List (String × JVal)) (k : String) (v : JVal)
    (h : lookupKV kvs k = some v) : kvs.any (fun p => p.1 == k) = true := by
  induction kvs with
  | nil => exact Option.noConfusion h
  | cons kv rest ih =>
    obtain ⟨k', v'⟩ := kv
    simp only [lookupKV] at h
    by_cases hk : k' = k
    · simp [hk]
    · rw [if_neg hk] at h
      simp [ih h]

theorem search_prelude_override (settings : Settings) (query : String) (limit : Int)
    (s : String) (upstream : GraphQLRequest → UpstreamResponse)
    (hs : s ≠ "")
    (htok : String.mk (pyStrip settings.shopify_storefront_token.data) ≠ "") :
    search_prelude settings query limit (some s) upstream =
      handle_response (upstream (sentRequest (normalize_domain (some s))
        settings.shopify_api_version
        (String.mk (pyStrip settings.shopify_storefront_token.data)) query limit)) := by
  simp [search_prelude, pyTruthyStrOpt, hs, htok]

theorem search_prelude_token_missing (settings : Settings) (query : String) (limit : Int)
    (s : String) (upstream : GraphQLRequest → UpstreamResponse)
    (hs : s ≠ "")
    (htok : String.mk (pyStrip settings.shopify_storefront_token.data) = "") :
    search_prelude settings query limit (some s) upstream =
      .error (.httpException 500
        (.detailText "Missing SHOPIFY_STOREFRONT_TOKEN. Set it in your .env.")) := by
  simp [search_prelude, pyTruthyStrOpt, hs, htok]

/-!
## Concrete fixtures used by witnesses and counterexamples
-/

/-- A valid configuration. -/
def settingsFixture : Settings :=
  { shopify_store_domain := "shop.myshopify.com"
    shopify_storefront_token := "token-1" }

/-- A product edge carrying only the legacy priceV2 (price selected but
null), no images and no featuredImage. -/
def edgeFixtureA : JVal :=
  .obj [("node", .obj [
    ("id", .str "gid-1"), ("title", .str "Shoe"), ("handle", .str "shoe"),
    ("variants", .obj [("edges", .arr [.obj [("node", .obj [
       ("price", .null),
       ("priceV2", .obj [("amount", .str "29.99"), ("currencyCode", .str "USD")])])]])])])]

/-- The result the code produces for `edgeFixtureA`. -/
def resultFixtureA : ProductResult :=
  { id := "gid-1", title := "Shoe", handle := "shoe", url := none,
    price := some { amount := (2999 : Rat) / 100, currencyCode := "USD" },
    image := none, imageAlt := none }

/-- A product edge with both a featuredImage and a first gallery image. -/
def edgeFixtureB : JVal :=
  .obj [("node", .obj [
    ("id", .str "gid-2"), ("title", .str "Hat"), ("handle", .str "hat"),
    ("featuredImage", .obj [("url", .str "img-feat"), ("altText", .str "alt-feat")]),
    ("images", .obj [("edges", .arr [.obj [("node", .obj [
       ("url", .str "img-gallery"), ("altText", .str "alt-gallery")])]])])])]

/-- The result the code produces for `edgeFixtureB`. -/
def resultFixtureB : ProductResult :=
  { id := "gid-2", title := "Hat", handle := "hat", url := none,
    price := none, image := some "img-feat", imageAlt := some "alt-feat" }

/-- An edge with every optional level absent except an empty variants
object and an empty images edge list. -/
def edgeFixtureAbsent : JVal :=
  .obj [("node", .obj [("variants", .obj []), ("images", .obj [("edges", .arr [])])])]

/-- The edge claim C1 promises is tolerated but the code rejects: the
first images edge is present but has no `node` key. -/
def edgeFixtureNoImgNode : JVal :=
  .obj [("node", .obj [("images", .obj [("edges", .arr [.obj []])])])]

/-- An upstream returning HTTP 200 with zero product edges. -/
def upstreamEmptyOk : GraphQLRequest → UpstreamResponse :=
  fun _ => { status := 200
             jsonBody := some (.obj [("data", .obj [("products", .obj [("edges", .arr [])])])])
             text := "" }

/-!
## The claims
-/

/-- C1 (counterexample): the claim says the normalizer tolerates a missing
`node` inside every kind of edge.  This edge is schema-shaped in the
claim's universe (image-edge nodes allowed to be absent: `edgeShape false`)
but the loop body raises `KeyError` on it, because main.py line 173 reads
`img_edges[0]["node"]` with a bracket subscript instead of `.get`. -/
theorem claim1_counterexample :
    edgeShape false edgeFixtureNoImgNode = true ∧
    normalizeEdge edgeFixtureNoImgNode = .error (.keyError "node") := ⟨by rfl, by rfl⟩

/-- C1 (amended): for every upstream edge mirroring the query shape in
which any combination of optional nesting levels is absent (missing
`variants`, `images`, `edges`, missing `node` in a product or variant
edge) and every present leaf is schema-typed with coercible amounts, the
normalizer succeeds; however a present images edge must carry its `node`
key (`edgeShape true`), since `img_edges[0]["node"]` raises otherwise. -/
theorem claim1_amended (edge : JVal) (h : edgeShape true edge = true) :
    ∃ r, normalizeEdge edge = .ok r :=
  ⟨specNormalizeNode ((jlookup edge "node").getD (.obj [])), normalizeEdge_of_shaped edge h⟩

theorem claim1_witness : ∃ r, normalizeEdge edgeFixtureAbsent = .ok r :=
  claim1_amended edgeFixtureAbsent (by rfl)

/-- C2: on schema-shaped edges, the price of the produced `ProductResult`
is exactly the spec's resolution (`specPriceMoney`: take the first
variant's node, prefer `price`, fall back to `priceV2` when `price` is
absent - missing or null, matching the spec's option-typed reading of the
GraphQL response - unset when both are absent, and when a node is found
build Money from its amount coerced to a number and its currencyCode
verbatim); when the variants edge list is empty the price is unset; and
id, title, handle are always populated, defaulting to the empty string
when absent. -/
theorem claim2_price_resolution (edge : JVal) (r : ProductResult)
    (hshape : edgeShape true edge = true)
    (hok : normalizeEdge edge = .ok r) :
    r.price = specPriceMoney ((jlookup edge "node").getD (.obj [])) ∧
    (specVariantEdges ((jlookup edge "node").getD (.obj [])) = [] → r.price = none) ∧
    r.id = strOrEmpty (jlookup ((jlookup edge "node").getD (.obj [])) "id") ∧
    r.title = strOrEmpty (jlookup ((jlookup edge "node").getD (.obj [])) "title") ∧
    r.handle = strOrEmpty (jlookup ((jlookup edge "node").getD (.obj [])) "handle") := by
  have heq := normalizeEdge_of_shaped edge hshape
  rw [heq] at hok
  cases hok
  refine ⟨rfl, ?_, rfl, rfl, rfl⟩
  intro hemp
  simp [specNormalizeNode, specPriceMoney, specPriceNode, hemp]

theorem claim2_witness :
    resultFixtureA.price = specPriceMoney ((jlookup edgeFixtureA "node").getD (.obj [])) ∧
    (specVariantEdges ((jlookup edgeFixtureA "node").getD (.obj [])) = [] →
      resultFixtureA.price = none) ∧
    resultFixtureA.id = strOrEmpty (jlookup ((jlookup edgeFixtureA "node").getD (.obj [])) "id") ∧
    resultFixtureA.title =
      strOrEmpty (jlookup ((jlookup edgeFixtureA "node").getD (.obj [])) "title") ∧
    resultFixtureA.handle =
      strOrEmpty (jlookup ((jlookup edgeFixtureA "node").getD (.obj [])) "handle") :=
  claim2_price_resolution edgeFixtureA resultFixtureA (by rfl) (by rfl)

/-- C3: on schema-shaped edges, the image and imageAlt fields of the
produced `ProductResult` are exactly the spec's resolution (`specImage`:
prefer `featuredImage` when it is a non-empty object, else the first entry
of the `images` edges sequence, else both unset); in particular whenever
`featuredImage` is a non-empty object - even when a gallery image is also
present - the result carries the featuredImage's url and altText. -/
theorem claim3_image_resolution (edge : JVal) (r : ProductResult)
    (hshape : edgeShape true edge = true)
    (hok : normalizeEdge edge = .ok r) :
    r.image = (specImage ((jlookup edge "node").getD (.obj []))).1 ∧
    r.imageAlt = (specImage ((jlookup edge "node").getD (.obj []))).2 ∧
    (∀ kv fkvs,
      jlookup ((jlookup edge "node").getD (.obj [])) "featuredImage" = some (.obj (kv :: fkvs)) →
      r.image = specOptStr (jlookup (.obj (kv :: fkvs)) "url") ∧
      r.imageAlt = specOptStr (jlookup (.obj (kv :: fkvs)) "altText")) := by
  have heq := normalizeEdge_of_shaped edge hshape
  rw [heq] at hok
  cases hok
  refine ⟨rfl, rfl, ?_⟩
  intro kv fkvs hfeat
  constructor <;> simp [specNormalizeNode, specImage, specImageNode, hfeat]

theorem claim3_witness :
    resultFixtureB.image = (specImage ((jlookup edgeFixtureB "node").getD (.obj []))).1 ∧
    resultFixtureB.imageAlt = (specImage ((jlookup edgeFixtureB "node").getD (.obj []))).2 ∧
    (∀ kv fkvs,
      jlookup ((jlookup edgeFixtureB "node").getD (.obj [])) "featuredImage" =
        some (.obj (kv :: fkvs)) →
      resultFixtureB.image = specOptStr (jlookup (.obj (kv :: fkvs)) "url") ∧
      resultFixtureB.imageAlt = specOptStr (jlookup (.obj (kv :: fkvs)) "altText")) :=
  claim3_image_resolution edgeFixtureB resultFixtureB (by rfl) (by rfl)

/-- An upstream failing with HTTP 500 and a JSON error body. -/
def upstream500 : GraphQLRequest → UpstreamResponse :=
  fun _ => { status := 500
             jsonBody := some (.obj [("error", .str "boom")])
             text := "boom" }

/-- C4: once the domain and token stages pass (an override store and a
non-blank token), the upstream outcomes force errors exactly as claimed:
a non-200 status becomes a 502 carrying the parsed JSON body (or the raw
text when the body is not JSON), and a 200 status whose body object
carries an `errors` array becomes a 502 carrying that array - never a
success with empty results. -/
theorem claim4_upstream_errors (settings : Settings) (query : String) (limit : Int)
    (s : String) (upstream : GraphQLRequest → UpstreamResponse) (resp : UpstreamResponse)
    (hs : s ≠ "")
    (htok : String.mk (pyStrip settings.shopify_storefront_token.data) ≠ "")
    (hresp : upstream (sentRequest (normalize_domain (some s)) settings.shopify_api_version
      (String.mk (pyStrip settings.shopify_storefront_token.data)) query limit) = resp) :
    (resp.status ≠ 200 →
      search_shopify_products settings query limit (some s) upstream =
        .error (.httpException 502
          (match resp.jsonBody with
           | some err => HTTPDetail.shopifyFailed err
           | none => HTTPDetail.shopifyFailedText resp.text))) ∧
    (∀ kvs errList, resp.status = 200 →
      resp.jsonBody = some (.obj kvs) →
      lookupKV kvs "errors" = some (.arr errList) →
      search_shopify_products settings query limit (some s) upstream =
        .error (.httpException 502 (.shopifyGraphQL (.arr errList)))) := by
  have hpre : search_prelude settings query limit (some s) upstream = handle_response resp := by
    rw [search_prelude_override settings query limit s upstream hs htok, hresp]
  constructor
  · intro hst
    have hh : handle_response resp = .error (.httpException 502
        (match resp.jsonBody with
         | some err => HTTPDetail.shopifyFailed err
         | none => HTTPDetail.shopifyFailedText resp.text)) := by
      unfold handle_response
      rw [if_pos hst]
      cases resp.jsonBody <;> rfl
    simp [search_shopify_products, hpre, hh]
  · intro kvs errList h200 hjson herrs
    have hany : (kvs.any (fun p => p.1 == "errors")) = true :=
      lookupKV_any kvs "errors" _ herrs
    have hh : handle_response resp =
        .error (.httpException 502 (.shopifyGraphQL (.arr errList))) := by
      unfold handle_response
      rw [if_neg (by simp [h200]), hjson]
      simp [pyIn, hany, pySubscript, herrs]
    simp [search_shopify_products, hpre, hh]

theorem claim4_witness :
    search_shopify_products settingsFixture "q" 5 (some "other.myshopify.com") upstream500 =
      .error (.httpException 502 (.shopifyFailed (.obj [("error", .str "boom")]))) := by
  have h := (claim4_upstream_errors settingsFixture "q" 5 "other.myshopify.com" upstream500
    { status := 500, jsonBody := some (.obj [("error", .str "boom")]), text := "boom" }
    (by decide) (by decide) (by rfl)).1 (by decide)
  exact h

/-- The node of an edge whose variant price has a non-numeric amount. -/
def priceFixtureBad : JVal :=
  .obj [("amount", .str "abc"), ("currencyCode", .str "USD")]

def nodeFixtureBad : JVal :=
  .obj [("id", .str "gid-3"), ("title", .str "Bag"), ("handle", .str "bag"),
    ("variants", .obj [("edges", .arr [.obj [("node", .obj [("price", priceFixtureBad)])]])])]

def edgeFixtureBad : JVal := .obj [("node", nodeFixtureBad)]

/-- An upstream whose single product edge carries the bad amount. -/
def upstreamBadAmount : GraphQLRequest → UpstreamResponse :=
  fun _ => { status := 200
             jsonBody := some (.obj [("data", .obj [("products", .obj
               [("edges", .arr [edgeFixtureBad])])])])
             text := "" }

/-- C5: whenever the edge list the search iterates contains an edge whose
resolved, truthy price node carries an `amount` that `float(...)` cannot
coerce to a number, the whole request fails with an error - the item is
not dropped and no partial success is returned. -/
theorem claim5_bad_amount_fails (settings : Settings) (query : String) (limit : Int)
    (store : Option String) (upstream : GraphQLRequest → UpstreamResponse)
    (edgeList : List JVal) (edge node pn amt : JVal)
    (hpre : search_prelude settings query limit store upstream = .ok edgeList)
    (hmem : edge ∈ edgeList)
    (hnode : pyGet edge "node" (.obj []) = .ok node)
    (hpn : resolve_price_node node = .ok pn)
    (ht : pyTruthy pn = true)
    (hamt : pySubscript pn "amount" = .ok amt)
    (hbad : ∀ q, pyFloat amt ≠ .ok q) :
    ∃ e, search_shopify_products settings query limit store upstream = .error e := by
  have hbadedge : ∀ r, normalizeEdge edge ≠ .ok r := by
    intro r hok
    have hnodeobj : ∃ nkvs, node = .obj nkvs := by
      cases node <;> simp [resolve_price_node, pyGet] at hpn
      case obj nkvs => exact ⟨nkvs, rfl⟩
    obtain ⟨nkvs, rfl⟩ := hnodeobj
    simp only [normalizeEdge, hnode, hpn] at hok
    cases himg : resolve_img_node (.obj nkvs) with
    | error e => rw [himg] at hok; exact Except.noConfusion hok
    | ok inode =>
      rw [himg] at hok
      simp only [build_product, pyGet_obj, ht, if_true, hamt] at hok
      cases hf : pyFloat amt with
      | ok q => exact hbad q hf
      | error e =>
        rw [hf] at hok
        simp at hok
  obtain ⟨err, herr⟩ := mapEdges_error_of_mem edgeList edge hmem hbadedge
  exact ⟨.pyErr err, by simp [search_shopify_products, hpre, herr]⟩

theorem claim5_witness :
    ∃ e, search_shopify_products settingsFixture "q" 5 none upstreamBadAmount = .error e :=
  claim5_bad_amount_fails settingsFixture "q" 5 none upstreamBadAmount
    [edgeFixtureBad] edgeFixtureBad nodeFixtureBad priceFixtureBad (.str "abc")
    (by rfl) (by simp) (by rfl) (by rfl) (by rfl) (by rfl)
    (by intro q h
        rw [show pyFloat (.str "abc") = .error .valueError from rfl] at h
        exact Except.noConfusion h)

/-- C8: the `num` variable the search function sends upstream is the
requested limit clamped to the inclusive range [1, 50]: values below 1
become 1, values above 50 become 50, in-range values pass through, and
1 ≤ num ≤ 50 always holds. -/
theorem claim8_num_clamped (domain apiVersion token query : String) (L : Int) :
    (sentRequest domain apiVersion token query L).num = num_variable L ∧
    1 ≤ num_variable L ∧ num_variable L ≤ 50 ∧
    (L < 1 → num_variable L = 1) ∧
    (50 < L → num_variable L = 50) ∧
    (1 ≤ L → L ≤ 50 → num_variable L = L) := by
  refine ⟨rfl, ?_, ?_, ?_, ?_, ?_⟩ <;> simp [num_variable] <;> omega

theorem claim8_witness :
    num_variable 99 = 50 ∧ num_variable (-3) = 1 ∧ num_variable 7 = 7 :=
  ⟨(claim8_num_clamped "d" "v" "t" "q" 99).2.2.2.2.1 (by omega),
   (claim8_num_clamped "d" "v" "t" "q" (-3)).2.2.2.1 (by omega),
   (claim8_num_clamped "d" "v" "t" "q" 7).2.2.2.2.2 (by omega) (by omega)⟩

/-- C10: even with a store override supplied (so the configured default
domain and its validation are bypassed), a configured token that strips to
the empty string - empty or whitespace-only - makes the search fail with
the 500 missing-token error, for every upstream whatsoever: no upstream
call can influence the outcome. -/
theorem claim10_token_required (settings : Settings) (query : String) (limit : Int)
    (s : String) (upstream : GraphQLRequest → UpstreamResponse)
    (hs : s ≠ "") (htok : pyStrip settings.shopify_storefront_token.data = []) :
    search_shopify_products settings query limit (some s) upstream =
      .error (.httpException 500
        (.detailText "Missing SHOPIFY_STOREFRONT_TOKEN. Set it in your .env.")) := by
  have hmk : String.mk (pyStrip settings.shopify_storefront_token.data) = "" := by
    rw [htok]
  have hpre := search_prelude_token_missing settings query limit s upstream hs hmk
  simp [search_shopify_products, hpre]

theorem claim10_witness :
    search_shopify_products
      { shopify_store_domain := "shop.myshopify.com", shopify_storefront_token := "   " }
      "q" 5 (some "override.myshopify.com") upstreamEmptyOk =
      .error (.httpException 500
        (.detailText "Missing SHOPIFY_STOREFRONT_TOKEN. Set it in your .env.")) :=
  claim10_token_required _ "q" 5 "override.myshopify.com" upstreamEmptyOk
    (by decide) (by decide)

/-- C6 (counterexample): the claim's one-strip description
(`normalize_domain_claimwords`) disagrees with the code.  First input: the
code's two sequential `if` statements strip `http://` and then also
`https://` from "http://https://shop.com" (two strips), while the claimed
first-match-wins single strip leaves "https://shop.com".  Second input:
the code trims whitespace again after the prefix strip, so
"https://  shop.com" becomes "shop.com", not "  shop.com". -/
theorem claim6_counterexample :
    normalize_domain (some "http://https://shop.com") ≠
      normalize_domain_claimwords "http://https://shop.com" ∧
    normalize_domain (some "https://  shop.com") ≠
      normalize_domain_claimwords "https://  shop.com" :=
  ⟨by decide, by decide⟩

/-- C6 (amended): `normalize_domain` is total over every optional string
input; it trims whitespace, strips a leading `http://`, then strips a
leading `https://` from the result (so an `http://https://` prefix is
stripped twice), trims whitespace again and strips leading/trailing `/`.
On every input whose trimmed form does not start with `http://https://`
this coincides with the claimed elif-style first-match-wins behaviour
(with the extra trim), and the claim's three examples hold. -/
theorem claim6_amended :
    (∀ s : String, ("http://https://".data).isPrefixOf (pyStrip s.data) = false →
      normalize_domain (some s) = normalize_domain_amended s) ∧
    normalize_domain (some "https://Shop.myshopify.com/") = "Shop.myshopify.com" ∧
    normalize_domain (some "  shop.com  ") = "shop.com" ∧
    normalize_domain (some "") = "" ∧
    normalize_domain none = "" ∧
    normalize_domain (some "http://https://shop.com") = "shop.com" :=
  ⟨normalize_domain_eq_amended, by decide, by decide, by decide, by decide, by decide⟩

theorem claim6_witness :
    ("http://https://".data).isPrefixOf (pyStrip "https://x.com".data) = false ∧
    normalize_domain (some "https://x.com") = normalize_domain_amended "https://x.com" :=
  ⟨by decide, claim6_amended.1 "https://x.com" (by decide)⟩

/-- C7 (counterexample): the claim says `q` is validated to be non-empty
at the boundary; the declaration `q: str = Query(...)` only makes it
required, so the empty string is accepted and the request proceeds to a
successful response instead of a client validation error. -/
theorem claim7_counterexample :
    searchRoute settingsFixture (some "") (some 5) none upstreamEmptyOk =
      .ok { store := "shop.myshopify.com", query := "", count := 0, results := [] } := by rfl

/-- C7 (amended): the surface validates at the boundary exactly this much:
`q` is required (absent means a client validation error) but may be empty;
`limit` defaults to 5 and an out-of-range value is rejected as a client
error, never clamped (in-range requests can fail only with server-side
errors); and a non-empty `store` override is normalized into the response
and makes the result independent of the configured default domain,
bypassing its configuration check. -/
theorem claim7_amended :
    (∀ (settings : Settings) (limit : Option Int) (store : Option String)
       (upstream : GraphQLRequest → UpstreamResponse),
       searchRoute settings none limit store upstream =
         .error (.validationError "q: field required")) ∧
    (∀ (settings : Settings) (q : String) (limit : Int) (store : Option String)
       (upstream : GraphQLRequest → UpstreamResponse),
       (limit < 1 ∨ 50 < limit) →
       searchRoute settings (some q) (some limit) store upstream =
         .error (.validationError "limit: value out of range")) ∧
    (∀ (settings : Settings) (q : String) (store : Option String)
       (upstream : GraphQLRequest → UpstreamResponse),
       searchRoute settings (some q) none store upstream =
         searchRoute settings (some q) (some 5) store upstream) ∧
    (∀ (settings : Settings) (q : String) (limit : Option Int) (s : String)
       (upstream : GraphQLRequest → UpstreamResponse) (d1 d2 : String),
       s ≠ "" →
       searchRoute { settings with shopify_store_domain := d1 } (some q) limit (some s) upstream =
         searchRoute { settings with shopify_store_domain := d2 } (some q) limit (some s) upstream) ∧
    (∀ (settings : Settings) (q : String) (limit : Option Int) (s : String)
       (upstream : GraphQLRequest → UpstreamResponse) (r : SearchResponse),
       s ≠ "" →
       searchRoute settings (some q) limit (some s) upstream = .ok r →
       r.store = normalize_domain (some s)) ∧
    (∀ (settings : Settings) (q : String) (limit : Int) (store : Option String)
       (upstream : GraphQLRequest → UpstreamResponse) (m : String),
       1 ≤ limit → limit ≤ 50 →
       searchRoute settings (some q) (some limit) store upstream ≠
         .error (.validationError m)) := by
  refine ⟨fun _ _ _ _ => rfl, ?_, ?_, ?_, ?_, ?_⟩
  · intro settings q limit store upstream h
    simp only [searchRoute, Option.getD_some]
    rw [if_pos h]
  · intro settings q store upstream
    rfl
  · intro settings q limit s upstream d1 d2 hs
    simp [searchRoute, search_shopify_products, search_prelude, pyTruthyStrOpt, hs]
  · intro settings q limit s upstream r hs hok
    simp only [searchRoute] at hok
    split at hok
    · exact Except.noConfusion hok
    · cases hsearch : search_shopify_products settings q ((limit.getD 5)) (some s) upstream with
      | error e => rw [hsearch] at hok; exact Except.noConfusion hok
      | ok results =>
        rw [hsearch] at hok
        cases hok
        simp [pyTruthyStrOpt, hs]
  · intro settings q limit store upstream m h1 h2 hcontra
    simp only [searchRoute, Option.getD_some] at hcontra
    rw [if_neg (by omega)] at hcontra
    cases hsearch : search_shopify_products settings q limit store upstream with
    | error e =>
      rw [hsearch] at hcontra
      cases hcontra
    | ok results =>
      rw [hsearch] at hcontra
      exact Except.noConfusion hcontra

theorem claim7_witness :
    searchRoute settingsFixture none (some 5) none upstreamEmptyOk =
      .error (.validationError "q: field required") ∧
    searchRoute settingsFixture (some "shoes") (some 99) none upstreamEmptyOk =
      .error (.validationError "limit: value out of range") ∧
    searchRoute { settingsFixture with shopify_store_domain := "bad" } (some "shoes") (some 5)
        (some "other.myshopify.com") upstreamEmptyOk =
      searchRoute { settingsFixture with shopify_store_domain := "x" } (some "shoes") (some 5)
        (some "other.myshopify.com") upstreamEmptyOk :=
  ⟨claim7_amended.1 settingsFixture (some 5) none upstreamEmptyOk,
   claim7_amended.2.1 settingsFixture "shoes" 99 none upstreamEmptyOk (by omega),
   claim7_amended.2.2.2.1 settingsFixture "shoes" (some 5) "other.myshopify.com"
     upstreamEmptyOk "bad" "x" (by decide)⟩

/-- An upstream returning HTTP 200 with exactly one product edge. -/
def upstreamOneEdge : GraphQLRequest → UpstreamResponse :=
  fun _ => { status := 200
             jsonBody := some (.obj [("data", .obj [("products", .obj
               [("edges", .arr [edgeFixtureA])])])])
             text := "" }

/-- The response the route produces for `upstreamOneEdge`. -/
def responseFixtureOne : SearchResponse :=
  { store := "shop.myshopify.com", query := "shoes", count := 1, results := [resultFixtureA] }

/-- C9: every successful `SearchResponse` of the route has `count` equal
to the length of `results`, and the results preserve the upstream order of
the edges: they have the same length as the iterated edge list and the
i-th result is the normalization of the i-th edge (no re-sorting). -/
theorem claim9_count_and_order (settings : Settings) (q : String) (limit : Option Int)
    (store : Option String) (upstream : GraphQLRequest → UpstreamResponse) (r : SearchResponse)
    (hok : searchRoute settings (some q) limit store upstream = .ok r) :
    r.count = r.results.length ∧
    ∀ edgeList, search_prelude settings q (limit.getD 5) store upstream = .ok edgeList →
      r.results.length = edgeList.length ∧
      ∀ i (h1 : i < edgeList.length) (h2 : i < r.results.length),
        normalizeEdge (edgeList.get ⟨i, h1⟩) = .ok (r.results.get ⟨i, h2⟩) := by
  simp only [searchRoute] at hok
  split at hok
  · exact Except.noConfusion hok
  · cases hsearch : search_shopify_products settings q (limit.getD 5) store upstream with
    | error e => rw [hsearch] at hok; exact Except.noConfusion hok
    | ok results =>
      rw [hsearch] at hok
      cases hok
      refine ⟨rfl, ?_⟩
      intro edgeList hpre
      simp only [search_shopify_products, hpre] at hsearch
      cases hme : mapEdges edgeList with
      | error e => rw [hme] at hsearch; exact Except.noConfusion hsearch
      | ok rs =>
        rw [hme] at hsearch
        cases hsearch
        exact mapEdges_length_get edgeList _ hme

theorem claim9_witness :
    responseFixtureOne.count = responseFixtureOne.results.length ∧
    ∀ edgeList,
      search_prelude settingsFixture "shoes" ((some 5).getD 5) none upstreamOneEdge =
        .ok edgeList →
      responseFixtureOne.results.length = edgeList.length ∧
      ∀ i (h1 : i < edgeList.length) (h2 : i < responseFixtureOne.results.length),
        normalizeEdge (edgeList.get ⟨i, h1⟩) = .ok (responseFixtureOne.results.get ⟨i, h2⟩) :=
  claim9_count_and_order settingsFixture "shoes" (some 5) none upstreamOneEdge
    responseFixtureOne (by rfl)

end ShopifyProxy